import Mathlib

/-!
Shallow embedding of the query-orchestration and performance-monitoring core
of the SME compliance assistant (src/core/rag_system.py and
src/core/performance_monitor.py), together with proofs checking the
natural-language specification against it.

Numeric values that the Python code holds as floats are modelled as exact
rationals (`ℚ`); Python's `round(x, 2)` (correct decimal rounding with ties
to even) is modelled by `pyRound2`.
-/

namespace SME

/-- Round a rational to the nearest integer, ties to even
(the tie-breaking rule of Python's builtin `round`). -/
def roundHalfEven (x : ℚ) : ℤ :=
  if x - (⌊x⌋ : ℚ) < 1/2 then ⌊x⌋
  else if 1/2 < x - (⌊x⌋ : ℚ) then ⌊x⌋ + 1
  else if ⌊x⌋ % 2 = 0 then ⌊x⌋ else ⌊x⌋ + 1

/-- Embedding of Python's `round(x, 2)` on exact rationals. -/
def pyRound2 (x : ℚ) : ℚ := (roundHalfEven (100 * x) : ℚ) / 100

/-- Lower-case the characters of a string
(embedding of Python's `str.lower` on the ASCII range). -/
def lowerChars (s : String) : List Char := s.toList.map Char.toLower

/-- Boolean list-prefix test. -/
def isPref : List Char → List Char → Bool
  | [], _ => true
  | _ :: _, [] => false
  | a :: as, b :: bs => a == b && isPref as bs

/-- Boolean substring test on character lists
(embedding of Python's `needle in hay` for strings). -/
def containsSub (needle : List Char) : List Char → Bool
  | [] => isPref needle []
  | c :: rest => isPref needle (c :: rest) || containsSub needle rest

/-- A retrieved document: content text plus metadata of abstract type `M`
(langchain's `Document`, as used by the orchestrator). -/
structure Document (M : Type) where
  page_content : String
  metadata : M
  deriving DecidableEq

/-- The fixed keyword set of `_calculate_confidence`. -/
def compliance_keywords : List String :=
  ["gst", "tax", "return", "filing", "deadline", "penalty", "rate"]

/-- The keyword-bonus accumulation loop of `_calculate_confidence`:
for each document and each keyword occurring in both the lower-cased
question and the lower-cased document text, add 0.1. -/
def keywordBonus {M : Type} (documents : List (Document M)) (question : String) : ℚ :=
  documents.foldl (fun acc doc =>
    compliance_keywords.foldl (fun acc2 kw =>
      if containsSub kw.toList (lowerChars question)
          && containsSub kw.toList (lowerChars doc.page_content)
      then acc2 + 1/10 else acc2) acc) 0

/-- Embedding of `ComplianceRAGSystem._calculate_confidence`. -/
def calculate_confidence {M : Type} (documents : List (Document M)) (question : String) : ℚ :=
  if documents.isEmpty then 0
  else pyRound2 (min (min ((documents.length : ℚ) / 3) 1
    + keywordBonus documents question) 1)

/-- The number of (item, keyword) pairs whose keyword occurs in both the
lower-cased question and the lower-cased item text (the spec's counting
formulation of the bonus). -/
def matchCount {M : Type} (documents : List (Document M)) (question : String) : ℕ :=
  (documents.map (fun doc =>
    (compliance_keywords.filter (fun kw =>
      containsSub kw.toList (lowerChars question)
        && containsSub kw.toList (lowerChars doc.page_content))).length)).sum

/-- The confidence scorer as the spec words it: 0 on an empty item list,
otherwise `min(base + bonus, 1)` rounded to two decimals, with
`base = min(count/3, 1)` and `bonus = 0.1 ·` the number of matching pairs. -/
def specConfidence {M : Type} (documents : List (Document M)) (question : String) : ℚ :=
  if documents.isEmpty then 0
  else pyRound2 (min (min ((documents.length : ℚ) / 3) 1
    + (1/10) * (matchCount documents question : ℚ)) 1)

/-- A fold that adds 0.1 per satisfied element equals 0.1 times the filter count. -/
lemma foldl_tenth_count (l : List String) (p : String → Bool) (b : ℚ) :
    l.foldl (fun acc kw => if p kw then acc + 1/10 else acc) b
      = b + (1/10) * ((l.filter p).length : ℚ) := by
  induction l generalizing b with
  | nil => simp
  | cons x xs ih =>
    simp only [List.foldl_cons, List.filter_cons]
    by_cases hx : p x
    · rw [if_pos hx, if_pos hx, ih]
      push_cast [List.length_cons]
      ring
    · rw [if_neg hx, if_neg hx, ih]

/-- The document-level accumulation loop, with explicit accumulator. -/
lemma keywordBonus_go {M : Type} (question : String) (ds : List (Document M)) (b : ℚ) :
    ds.foldl (fun acc doc =>
      compliance_keywords.foldl (fun acc2 kw =>
        if containsSub kw.toList (lowerChars question)
            && containsSub kw.toList (lowerChars doc.page_content)
        then acc2 + 1/10 else acc2) acc) b
    = b + (1/10) * ((ds.map (fun doc =>
        (compliance_keywords.filter (fun kw =>
          containsSub kw.toList (lowerChars question)
            && containsSub kw.toList (lowerChars doc.page_content))).length)).sum : ℚ) := by
  induction ds generalizing b with
  | nil => simp
  | cons d dd ih =>
    simp only [List.foldl_cons, List.map_cons, List.sum_cons]
    rw [foldl_tenth_count, ih]
    push_cast
    ring

/-- The accumulated keyword bonus is 0.1 times the pair count. -/
lemma keywordBonus_eq_matchCount {M : Type} (documents : List (Document M)) (question : String) :
    keywordBonus documents question = (1/10) * (matchCount documents question : ℚ) := by
  unfold keywordBonus matchCount
  rw [keywordBonus_go]
  ring

theorem keywordBonus_nonneg {M : Type} (documents : List (Document M)) (question : String) :
    0 ≤ keywordBonus documents question := by
  rw [keywordBonus_eq_matchCount]
  positivity

/-- Bounds for the half-even rounding at the concrete bound 100. -/
lemma roundHalfEven_bounds (x : ℚ) (h0 : 0 ≤ x) (h1 : x ≤ 100) :
    0 ≤ roundHalfEven x ∧ roundHalfEven x ≤ 100 := by
  have hfl : (0 : ℤ) ≤ ⌊x⌋ := Int.floor_nonneg.mpr h0
  have hfu : ⌊x⌋ ≤ 100 := by
    have h := Int.floor_le_floor h1
    simpa using h
  have hxle : (⌊x⌋ : ℚ) ≤ x := Int.floor_le x
  unfold roundHalfEven
  split_ifs with hA hB hC
  · exact ⟨hfl, hfu⟩
  · have hq : (⌊x⌋ : ℚ) < 100 := by linarith
    have h99 : ⌊x⌋ < 100 := by exact_mod_cast hq
    omega
  · exact ⟨hfl, hfu⟩
  · push_neg at hA
    have hq : (⌊x⌋ : ℚ) < 100 := by linarith
    have h99 : ⌊x⌋ < 100 := by exact_mod_cast hq
    omega

/-- `pyRound2` maps `[0, 1]` into `[0, 1]`. -/
lemma pyRound2_mem_unit (x : ℚ) (h0 : 0 ≤ x) (h1 : x ≤ 1) :
    0 ≤ pyRound2 x ∧ pyRound2 x ≤ 1 := by
  have h := roundHalfEven_bounds (100 * x) (by linarith) (by linarith)
  unfold pyRound2
  constructor
  · have hc : (0 : ℚ) ≤ (roundHalfEven (100 * x) : ℚ) := by exact_mod_cast h.1
    positivity
  · rw [div_le_one (by norm_num)]
    exact_mod_cast h.2

/-- The confidence score always lies in `[0, 1]`. -/
lemma calculate_confidence_mem_unit {M : Type}
    (documents : List (Document M)) (question : String) :
    0 ≤ calculate_confidence documents question
      ∧ calculate_confidence documents question ≤ 1 := by
  unfold calculate_confidence
  split_ifs
  · norm_num
  · refine pyRound2_mem_unit _ ?_ (min_le_right _ _)
    have hb := keywordBonus_nonneg documents question
    have hbase : (0:ℚ) ≤ min ((documents.length : ℚ) / 3) 1 := by positivity
    exact le_min (by linarith) (by norm_num)

/-- Claim C1: for a non-empty list of retrieved items the scorer returns
`min(base + bonus, 1.0)` rounded to two decimals, where
`base = min(count/3, 1)` and `bonus = 0.1 ·` the number of (item, keyword)
pairs whose keyword occurs in both the lower-cased question and the
lower-cased item text (uncapped); for an empty list it returns 0. -/
theorem claim_C1 {M : Type} (documents : List (Document M)) (question : String) :
    calculate_confidence documents question = specConfidence documents question := by
  unfold calculate_confidence specConfidence
  rw [keywordBonus_eq_matchCount]

/-- Claim C10: the two-decimal rounding used by the scorer is Python's
round-half-to-even: the scorer applies `pyRound2` to the raw clamped score,
and whenever the argument of `pyRound2` is exactly halfway between two
two-decimal values, the result is the neighbour with an even last digit
(at distance exactly 1/200). -/
theorem claim_C10 :
    (∀ (documents : List (Document String)) (question : String),
        documents ≠ [] →
        calculate_confidence documents question
          = pyRound2 (min (min ((documents.length : ℚ) / 3) 1
              + keywordBonus documents question) 1))
    ∧ (∀ x : ℚ, (∃ j : ℤ, 100 * x = (j : ℚ) + 1/2) →
        ∃ m : ℤ, m % 2 = 0 ∧ pyRound2 x = (m : ℚ) / 100
          ∧ |100 * x - (m : ℚ)| = 1/2) := by
  constructor
  · intro documents question hne
    unfold calculate_confidence
    rw [if_neg (by simpa [List.isEmpty_iff] using hne)]
  · rintro x ⟨j, hj⟩
    have hfl : ⌊100 * x⌋ = j := by
      have hhalf : ⌊(1/2 : ℚ)⌋ = 0 := by
        rw [Int.floor_eq_zero_iff]
        constructor <;> norm_num
      rw [hj, Int.floor_int_add, hhalf, add_zero]
    have hfrac : 100 * x - (j : ℚ) = 1/2 := by rw [hj]; ring
    by_cases hpar : j % 2 = 0
    · refine ⟨j, hpar, ?_, ?_⟩
      · unfold pyRound2 roundHalfEven
        rw [hfl, hfrac]
        rw [if_neg (lt_irrefl _), if_neg (lt_irrefl _), if_pos hpar]
      · rw [hfrac]
        norm_num
    · refine ⟨j + 1, by omega, ?_, ?_⟩
      · unfold pyRound2 roundHalfEven
        rw [hfl, hfrac]
        rw [if_neg (lt_irrefl _), if_neg (lt_irrefl _), if_neg hpar]
      · have h2 : 100 * x - ((j : ℚ) + 1) = -(1/2) := by rw [hj]; ring
        push_cast
        rw [h2]
        norm_num

/-- Witness for C10 at concrete inputs: a singleton item list is non-empty
and the scorer applies `pyRound2` to its raw score; `0.125` is exactly
halfway (`100 · 0.125 = 12 + 1/2`) and the rounding picks an even
neighbour. -/
theorem claim_C10_witness :
    (calculate_confidence [Document.mk "gst" "m"] "gst"
        = pyRound2 (min (min ((([Document.mk "gst" "m"] : List (Document String)).length : ℚ) / 3) 1
            + keywordBonus [Document.mk "gst" "m"] "gst") 1))
    ∧ ∃ m : ℤ, m % 2 = 0 ∧ pyRound2 (1/8) = (m : ℚ) / 100
        ∧ |100 * (1/8 : ℚ) - (m : ℚ)| = 1/2 :=
  ⟨claim_C10.1 [Document.mk "gst" "m"] "gst" (by decide),
   claim_C10.2 (1/8) ⟨12, by norm_num⟩⟩

/-! ## Performance monitor (src/core/performance_monitor.py) -/

/-- One sample of the background sampler (`PerformanceMetric`). -/
structure PerformanceMetric where
  timestamp : ℚ
  cpu_percent : ℚ
  memory_percent : ℚ
  active_queries : ℤ
  total_queries : ℕ
  avg_response_time : ℚ
  success_rate : ℚ
  deriving DecidableEq

/-- The mutable state of `PerformanceMonitor`. -/
structure MonitorState where
  metrics_history : List PerformanceMetric
  active_queries : ℤ
  total_queries : ℕ
  failed_queries : ℕ
  response_times : List ℚ
  start_time : ℚ
  deriving DecidableEq

/-- The freshly constructed monitor (`PerformanceMonitor.__init__`). -/
def initialMonitor (t0 : ℚ) : MonitorState :=
  { metrics_history := []
    active_queries := 0
    total_queries := 0
    failed_queries := 0
    response_times := []
    start_time := t0 }

/-- Python slice `l[-n:]`: the last `n` entries. -/
def takeLast (n : ℕ) (l : List ℚ) : List ℚ := l.drop (l.length - n)

/-- `sum(self.response_times[-10:]) / max(len(self.response_times[-10:]), 1)`. -/
def avgResponseTime (rts : List ℚ) : ℚ :=
  (takeLast 10 rts).sum / (max ((takeLast 10 rts).length : ℕ) 1 : ℕ)

/-- Embedding of `PerformanceMonitor.start_query` (the returned wall-clock
token is kept outside the state). -/
def start_query (s : MonitorState) : MonitorState :=
  { s with active_queries := s.active_queries + 1 }

/-- Embedding of `PerformanceMonitor.end_query`; `elapsed` is the measured
`time.time() - start_time`. -/
def end_query (s : MonitorState) (elapsed : ℚ) (success : Bool) : MonitorState :=
  let rt := s.response_times ++ [elapsed]
  { s with
    active_queries := max 0 (s.active_queries - 1)
    total_queries := s.total_queries + 1
    failed_queries := if success then s.failed_queries else s.failed_queries + 1
    response_times := if rt.length > 100 then rt.drop (rt.length - 100) else rt }

/-- Repeatedly evict the oldest entry until at most 100 remain
(the spec formulation of the FIFO eviction of `responseTimes`). -/
def evictOldest : List ℚ → List ℚ
  | [] => []
  | t :: ts => if (t :: ts).length ≤ 100 then t :: ts else evictOldest ts

/-- One iteration of the background sampler loop `_collect_metrics`:
compose a sample from the current counters, append it, and drop every
sample older than one hour relative to `trimNow`. -/
def collect_metrics_tick (s : MonitorState) (now cpu mem : ℚ) (trimNow : ℚ) : MonitorState :=
  let metric : PerformanceMetric :=
    { timestamp := now
      cpu_percent := cpu
      memory_percent := mem
      active_queries := s.active_queries
      total_queries := s.total_queries
      avg_response_time := avgResponseTime s.response_times
      success_rate := ((s.total_queries : ℚ) - (s.failed_queries : ℚ))
        / (max s.total_queries 1 : ℕ) }
  { s with metrics_history :=
      (s.metrics_history ++ [metric]).filter (fun m => trimNow - 3600 < m.timestamp) }

/-- The snapshot returned by `PerformanceMonitor.get_current_stats`. -/
structure CurrentStats where
  uptime_seconds : ℚ
  total_queries : ℕ
  failed_queries : ℕ
  success_rate : ℚ
  active_queries : ℤ
  avg_response_time : ℚ
  cpu_percent : ℚ
  memory_percent : ℚ
  queries_per_minute : ℕ
  deriving DecidableEq

/-- Embedding of `PerformanceMonitor.get_current_stats`; `now` is the
wall-clock time `time.time()` at the call.  Note the
`queries_per_minute` field: the code filters the stored response-time
DURATIONS with `time.time() - t < 60`. -/
def get_current_stats (s : MonitorState) (now cpu mem : ℚ) : CurrentStats :=
  { uptime_seconds := now - s.start_time
    total_queries := s.total_queries
    failed_queries := s.failed_queries
    success_rate := ((s.total_queries : ℚ) - (s.failed_queries : ℚ))
      / (max s.total_queries 1 : ℕ)
    active_queries := s.active_queries
    avg_response_time := avgResponseTime s.response_times
    cpu_percent := cpu
    memory_percent := mem
    queries_per_minute :=
      if s.response_times.isEmpty then 0
      else (s.response_times.filter (fun t => now - t < 60)).length }

/-- The monitor operations reachable from query handlers. -/
inductive MonOp
  | startQ : MonOp
  | endQ (elapsed : ℚ) (success : Bool) : MonOp

/-- Apply one monitor operation. -/
def applyOp (s : MonitorState) : MonOp → MonitorState
  | .startQ => start_query s
  | .endQ e b => end_query s e b

/-- Run a sequence of monitor operations from the freshly built monitor. -/
def runOps (t0 : ℚ) (ops : List MonOp) : MonitorState :=
  ops.foldl applyOp (initialMonitor t0)

/-- The conjoined monitor invariant of the spec. -/
def MonitorInvariant (s : MonitorState) : Prop :=
  0 ≤ s.active_queries ∧ s.failed_queries ≤ s.total_queries
    ∧ s.response_times.length ≤ 100

/-- The ad hoc slice-based trim of `end_query` is the FIFO
oldest-first eviction. -/
lemma trim_eq_evictOldest (l : List ℚ) :
    (if l.length > 100 then l.drop (l.length - 100) else l) = evictOldest l := by
  induction l with
  | nil => simp [evictOldest]
  | cons x t ih =>
    unfold evictOldest
    by_cases h : (x :: t).length ≤ 100
    · rw [if_neg (by omega), if_pos h]
    · have ht : 100 ≤ t.length := by simp only [List.length_cons] at h; omega
      rw [if_pos (by omega), if_neg h,
        show (x :: t).length - 100 = (t.length - 100) + 1 by
          simp only [List.length_cons]; omega,
        List.drop_succ_cons, ← ih]
      by_cases h2 : t.length > 100
      · rw [if_pos h2]
      · rw [if_neg h2, show t.length - 100 = 0 by omega, List.drop_zero]

/-- After `end_query` the response-time list never exceeds 100 entries. -/
lemma end_query_response_times_le (s : MonitorState) (e : ℚ) (b : Bool) :
    (end_query s e b).response_times.length ≤ 100 := by
  unfold end_query
  simp only
  split_ifs with h
  · simp only [List.length_drop]
    omega
  · simp only [List.length_append, List.length_cons, List.length_nil] at h ⊢
    omega

/-- Claim C5: `end_query` decrements `activeQueries` with a floor at 0,
increments `totalQueries` by one, increments `failedQueries` exactly when
the success flag is false, and appends the elapsed time with oldest-first
eviction at capacity 100. -/
theorem claim_C5 (s : MonitorState) (elapsed : ℚ) (success : Bool) :
    (end_query s elapsed success).active_queries = max 0 (s.active_queries - 1)
    ∧ (end_query s elapsed success).total_queries = s.total_queries + 1
    ∧ ((end_query s elapsed success).failed_queries = s.failed_queries + 1
        ↔ success = false)
    ∧ (end_query s elapsed success).response_times
        = evictOldest (s.response_times ++ [elapsed]) := by
  refine ⟨rfl, rfl, ?_, ?_⟩
  · unfold end_query
    cases success <;> simp
  · rw [← trim_eq_evictOldest]
    rfl

/-- The invariant survives any single monitor operation. -/
lemma applyOp_preserves (s : MonitorState) (op : MonOp)
    (h : MonitorInvariant s) : MonitorInvariant (applyOp s op) := by
  obtain ⟨h1, h2, h3⟩ := h
  cases op with
  | startQ =>
    exact ⟨by unfold applyOp start_query; simp only; omega, h2, h3⟩
  | endQ e b =>
    refine ⟨?_, ?_, end_query_response_times_le s e b⟩
    · show 0 ≤ max 0 (s.active_queries - 1)
      exact le_max_left _ _
    · show (if b then s.failed_queries else s.failed_queries + 1) ≤ s.total_queries + 1
      cases b <;> simp <;> omega

/-- Claim C6: every sequence of begin/end operations from the initial
monitor state preserves `activeQueries ≥ 0`, `failedQueries ≤ totalQueries`
and `length responseTimes ≤ 100`. -/
theorem claim_C6 (t0 : ℚ) (ops : List MonOp) : MonitorInvariant (runOps t0 ops) := by
  have hgen : ∀ (l : List MonOp) (s : MonitorState),
      MonitorInvariant s → MonitorInvariant (l.foldl applyOp s) := by
    intro l
    induction l with
    | nil => intro s hs; exact hs
    | cons op rest ih =>
      intro s hs
      exact ih _ (applyOp_preserves s op hs)
  exact hgen ops (initialMonitor t0) ⟨le_refl 0, le_refl 0, by simp [initialMonitor]⟩

/-- Claim C7 (code behaviour at the failing input): a monitor that has just
completed one query, with duration 0.5 s, reports `queries_per_minute = 0`
at wall-clock time 1000000, although exactly one query completed within the
preceding 60 seconds. -/
theorem claim_C7_failing :
    (get_current_stats
      { metrics_history := []
        active_queries := 0
        total_queries := 1
        failed_queries := 0
        response_times := [1/2]
        start_time := 0 } 1000000 0 0).queries_per_minute = 0 := by
  unfold get_current_stats
  norm_num [List.filter]

/-- Claim C9: after a sampler tick (append of the fresh sample, then trim),
every sample left in the history is less than one hour old relative to the
trim time; this holds from every state, hence from every reachable one. -/
theorem claim_C9 (s : MonitorState) (now cpu mem trimNow : ℚ) :
    List.Forall (fun m => trimNow - m.timestamp < 3600)
      ((collect_metrics_tick s now cpu mem trimNow).metrics_history) := by
  rw [List.forall_iff_forall_mem]
  intro m hm
  unfold collect_metrics_tick at hm
  simp only [List.mem_filter] at hm
  have h := of_decide_eq_true hm.2
  linarith

/-! ## Query orchestrator (src/core/rag_system.py, `ComplianceRAGSystem.query`) -/

/-- Python slice `s[:n]`: the first `n` characters. -/
def strTake (s : String) (n : ℕ) : String := String.mk (s.toList.take n)

/-- Embedding of Python `str.strip` (drop surrounding whitespace). -/
def pyStrip (s : String) : String :=
  String.mk (((s.toList.dropWhile Char.isWhitespace).reverse.dropWhile
    Char.isWhitespace).reverse)

/-- The fixed message of the zero-result path of `query`. -/
def not_found_answer : String :=
  "I couldn't find relevant information in the compliance documents. Please try rephrasing your question or consult with a qualified CA."

/-- The fixed generic failure message of the top-level fault handler of `query`. -/
def error_answer : String :=
  "I encountered an error processing your question. Please try again or contact support."

/-- Embedding of `ComplianceRAGSystem._prepare_context`. -/
def prepare_context {M : Type} (documents : List (Document M)) : String :=
  String.intercalate "\n\n" (documents.enum.map
    (fun p => "Source " ++ toString (p.1 + 1) ++ ": " ++ p.2.page_content))

/-- Labelled item texts starting from label `n` (the spec formulation of
context assembly: each text under a 1-based Source label, in order). -/
def labelFrom (n : ℕ) : List String → List String
  | [] => []
  | t :: ts => ("Source " ++ toString n ++ ": " ++ t) :: labelFrom (n + 1) ts

/-- Context assembly as the spec words it. -/
def specContext (texts : List String) : String :=
  String.intercalate "\n\n" (labelFrom 1 texts)

/-- Embedding of `ComplianceRAGSystem._mock_llm_response`, the deterministic
fallback answer template. -/
def mock_llm_response (context question : String) : String :=
  "Based on the provided context, here's what I found regarding your question about \"" ++ question
    ++ "\":\n\n" ++ strTake context 200
    ++ "...\n\nPlease note: This is a mock response. For production use, please configure OpenAI API key or install Ollama with a language model.\n\nKey points from the context:\n- Information is available in the compliance documents\n- For detailed advice, please consult with a qualified CA\n- Always verify current rates and deadlines with official sources"

/-- The fallback answer as the spec words it: a template assembled from a
given 200-character context prefix and the question. -/
def specFallback (prefix200 question : String) : String :=
  "Based on the provided context, here's what I found regarding your question about \"" ++ question
    ++ "\":\n\n" ++ prefix200
    ++ "...\n\nPlease note: This is a mock response. For production use, please configure OpenAI API key or install Ollama with a language model.\n\nKey points from the context:\n- Information is available in the compliance documents\n- For detailed advice, please consult with a qualified CA\n- Always verify current rates and deadlines with official sources"

/-- The internal steps of one query, recorded as a trace. -/
inductive Step
  | retrieve
  | assemble
  | generate
  | fallback
  | score
  deriving DecidableEq

/-- The outcome dictionary built by `query` (`context_used` is present only
on the success path). -/
structure QueryResult (M : Type) where
  answer : String
  sources : List M
  confidence : ℚ
  response_time : ℚ
  context_used : Option String
  deriving DecidableEq

/-- One run of `query`: the returned outcome, the success flag passed to
`performance_monitor.end_query`, and the trace of executed steps. -/
structure QueryRun (M : Type) where
  result : QueryResult M
  monitor_success : Bool
  steps : List Step
  deriving DecidableEq

/-- Embedding of `ComplianceRAGSystem.query`.  The retrieval and generation
collaborators are modelled by their outcomes: `searchRes` is the result of
`self.vector_store.search` (`Except.error` when it raises), `llmMock`
tells whether `llm_type == "mock"`, `genRes` the result of
`self.chain.run` (consulted only when `llmMock` is false), and `elapsed`
the measured wall-clock span `time.time() - start_time`. -/
def query {M : Type} (question : String) (_k : ℕ)
    (searchRes : Except Unit (List (Document M))) (llmMock : Bool)
    (genRes : Except Unit String) (elapsed : ℚ) : QueryRun M :=
  match searchRes with
  | .error _ =>
    { result := { answer := error_answer, sources := [], confidence := 0,
                  response_time := elapsed, context_used := none }
      monitor_success := false
      steps := [Step.retrieve] }
  | .ok relevant_docs =>
    if relevant_docs.isEmpty then
      { result := { answer := not_found_answer, sources := [], confidence := 0,
                    response_time := elapsed, context_used := none }
        monitor_success := false
        steps := [Step.retrieve] }
    else
      let context := prepare_context relevant_docs
      let answer :=
        if llmMock then mock_llm_response context question
        else match genRes with
          | .ok response => pyStrip response
          | .error _ => mock_llm_response context question
      { result := { answer := answer
                    sources := relevant_docs.map (fun d => d.metadata)
                    confidence := calculate_confidence relevant_docs question
                    response_time := elapsed
                    context_used := some (if context.length > 200
                      then strTake context 200 ++ "..." else context) }
        monitor_success := true
        steps := [Step.retrieve, Step.assemble]
          ++ (if llmMock then [Step.fallback]
              else match genRes with
                | .ok _ => [Step.generate]
                | .error _ => [Step.generate, Step.fallback])
          ++ [Step.score] }

/-- Well-formedness of an outcome: confidence within `[0, 1]` and the
elapsed time recorded. -/
def WellFormedOutcome {M : Type} (r : QueryResult M) (elapsed : ℚ) : Prop :=
  0 ≤ r.confidence ∧ r.confidence ≤ 1 ∧ r.response_time = elapsed

/-- Claim C2: `query` never leaks a collaborator fault: every run yields a
well-formed outcome, and when retrieval faults the outcome is the fixed
generic failure message with confidence 0, empty sources, the elapsed time
set, and the monitor notified with success = false. -/
theorem claim_C2 (M : Type) (question : String) (k : ℕ)
    (searchRes : Except Unit (List (Document M))) (llmMock : Bool)
    (genRes : Except Unit String) (elapsed : ℚ) :
    WellFormedOutcome (query question k searchRes llmMock genRes elapsed).result elapsed
    ∧ query (M := M) question k (Except.error ()) llmMock genRes elapsed
        = { result := { answer := error_answer, sources := [], confidence := 0,
                        response_time := elapsed, context_used := none }
            monitor_success := false
            steps := [Step.retrieve] } := by
  constructor
  · unfold WellFormedOutcome
    cases searchRes with
    | error e =>
      exact ⟨le_refl 0, show (0:ℚ) ≤ 1 by norm_num, rfl⟩
    | ok docs =>
      cases docs with
      | nil => exact ⟨le_refl 0, show (0:ℚ) ≤ 1 by norm_num, rfl⟩
      | cons d0 ds =>
        have hconf := calculate_confidence_mem_unit (d0 :: ds) question
        exact ⟨hconf.1, hconf.2, rfl⟩
  · rfl

/-- Claim C3: when retrieval returns at least one item and the generation
collaborator faults (non-mock mode), the run does not fail: the answer is
the deterministic fallback template over the assembled context and the
question (the template depends on the context only through its first 200
characters), confidence is still computed by the scorer from the retrieved
items, the sources are the items' metadata, and the monitor is
notified with success = true. -/
theorem claim_C3 (M : Type) (question : String) (k : ℕ) (d : Document M)
    (rest : List (Document M)) (elapsed : ℚ) :
    ((query question k (Except.ok (d :: rest)) false (Except.error ()) elapsed).result.answer
        = mock_llm_response (prepare_context (d :: rest)) question
      ∧ (query question k (Except.ok (d :: rest)) false (Except.error ()) elapsed).result.confidence
        = calculate_confidence (d :: rest) question
      ∧ (query question k (Except.ok (d :: rest)) false (Except.error ()) elapsed).result.sources
        = (d :: rest).map (fun doc => doc.metadata)
      ∧ (query question k (Except.ok (d :: rest)) false (Except.error ()) elapsed).monitor_success
        = true)
    ∧ ∀ c q : String, mock_llm_response c q = specFallback (strTake c 200) q := by
  exact ⟨⟨rfl, rfl, rfl, rfl⟩, fun c q => rfl⟩

/-- Claim C4: when retrieval returns zero items, `query` returns the fixed
not-found outcome (confidence 0, empty sources, elapsed recorded), notifies
the monitor with success = false, and runs no context-assembly, generation,
fallback or scoring step. -/
theorem claim_C4 (M : Type) (question : String) (k : ℕ) (llmMock : Bool)
    (genRes : Except Unit String) (elapsed : ℚ) :
    query (M := M) question k (Except.ok []) llmMock genRes elapsed
      = { result := { answer := not_found_answer, sources := [], confidence := 0,
                      response_time := elapsed, context_used := none }
          monitor_success := false
          steps := [Step.retrieve] }
    ∧ Step.assemble ∉ (query (M := M) question k (Except.ok []) llmMock genRes elapsed).steps
    ∧ Step.generate ∉ (query (M := M) question k (Except.ok []) llmMock genRes elapsed).steps
    ∧ Step.fallback ∉ (query (M := M) question k (Except.ok []) llmMock genRes elapsed).steps
    ∧ Step.score ∉ (query (M := M) question k (Except.ok []) llmMock genRes elapsed).steps := by
  refine ⟨rfl, ?_, ?_, ?_, ?_⟩ <;> simp [query]

/-- The enumerate-based labelling of `_prepare_context` coincides with the
recursive 1-based labelling, for any starting index. -/
lemma enumFrom_label {M : Type} (documents : List (Document M)) (k : ℕ) :
    (List.enumFrom k documents).map
        (fun p => "Source " ++ toString (p.1 + 1) ++ ": " ++ p.2.page_content)
      = labelFrom (k + 1) (documents.map (fun d => d.page_content)) := by
  induction documents generalizing k with
  | nil => simp [labelFrom]
  | cons d ds ih =>
    simp only [List.enumFrom_cons, List.map_cons, labelFrom]
    exact congrArg _ (ih (k + 1))

/-- Claim C8: for every non-empty retrieval result, the assembled context is
each item text under its 1-based "Source N: " label, in exactly retrieval
order, joined by blank lines. -/
theorem claim_C8 (M : Type) (d : Document M) (rest : List (Document M)) :
    prepare_context (d :: rest)
      = specContext ((d :: rest).map (fun doc => doc.page_content)) := by
  unfold prepare_context specContext
  rw [show (d :: rest).enum = List.enumFrom 0 (d :: rest) from rfl, enumFrom_label]

end SME
